import Mathlib

/-!
Verification of the magic-loop component lifecycle driver.

The repository ships the README, the test suite and the public type
declarations; the lifecycle driver itself (the `component` function, the
generator driver, the attribute/property bridge and the name
normalization) is modelled here from the specification, faithful to its
words, and checked against the behaviours the tests pin down.
-/

namespace MagicLoop

/-- Modelled from the spec: a view description, the declarative diffable
description of desired UI structure yielded by a component's render
procedure (spec glossary). -/
inductive View where
  | text (s : String)
  | node (tag : String) (children : List View)

/-- Modelled from the spec: the observable outcome of resuming the
component generator once (spec 4.1 `advance`): it yields a view, returns
a view, returns with no value, or raises an error. -/
inductive GenStep where
  | yieldView (v : View)
  | returnView (v : View)
  | returnVoid
  | raise

/-- Modelled from the spec: a generator's behaviour, as the step it
produces at its n-th resumption (spec 9: represent the render logic as a
state object exposing the next result explicitly). -/
abbrev Gen := Nat → GenStep

/-- Modelled from the spec: the lifecycle states of the generator driver,
`Unstarted → Running → Finalized`, with the special `Settled` state for a
generator that returns a view (spec 4.1). -/
inductive LifecycleState where
  | unstarted
  | running
  | settled
  | finalized
deriving DecidableEq

/-- Modelled from the spec: a property value of one of the primitive
kinds string/number/boolean/object inferred from the declared default
(spec 3, spec 9). -/
inductive PropValue where
  | str (s : String)
  | num (n : Int)
  | boolean (b : Bool)
  | obj
deriving DecidableEq

/-- Modelled from the spec: the closed tagged-variant kind inferred once
at registration from a default value (spec 9). -/
inductive PropKind where
  | strKind
  | numKind
  | boolKind
  | objKind
deriving DecidableEq

/-- Modelled from the spec: the kind of a default property value. -/
def kindOf : PropValue → PropKind
  | PropValue.str _ => PropKind.strKind
  | PropValue.num _ => PropKind.numKind
  | PropValue.boolean _ => PropKind.boolKind
  | PropValue.obj => PropKind.objKind

/-- Modelled from the spec: one component instance, with the driver's
lifecycle state, the connected flag, the count of generator resumptions,
the last committed view and the count of commits, the pending-render
token modelled as the in-flight flag plus the one-more-requested flag
(spec 3 `pendingRenderToken`, spec 9), the live `properties` mapping, a
count of attribute-mutation callback invocations and a count of logged
errors. -/
structure Instance where
  lifecycle : LifecycleState
  connected : Bool
  resumptions : Nat
  committed : Option View
  commits : Nat
  renderInFlight : Bool
  renderRequested : Bool
  props : String → Option PropValue
  attrCallbacks : Nat
  errorsLogged : Nat

/-- Modelled from the spec: a freshly constructed element before
connection: unstarted, disconnected, nothing committed. -/
def newInstance : Instance :=
  { lifecycle := LifecycleState.unstarted
    connected := false
    resumptions := 0
    committed := none
    commits := 0
    renderInFlight := false
    renderRequested := false
    props := fun _ => none
    attrCallbacks := 0
    errorsLogged := 0 }

/-- Modelled from the spec: the render commit function — committing into
a root whose element has disconnected is a no-op, not an error (spec 5
cancellation); otherwise the view becomes the committed view. -/
def commitView (inst : Instance) (v : View) : Instance :=
  if inst.connected = true then
    { inst with committed := some v, commits := inst.commits + 1 }
  else inst

/-- Modelled from the spec: completing one `advance` of the generator
(spec 4.1): on yield, commit and remain Running; on return with a view,
commit and transition to Settled; on return with no value, leave the
committed view untouched and transition to Settled; on raised error,
transition to Finalized, log, and keep the last committed view. -/
def completeAdvance (gen : Gen) (inst : Instance) : Instance :=
  let i2 : Instance :=
    { inst with resumptions := inst.resumptions + 1, renderInFlight := false }
  match gen inst.resumptions with
  | GenStep.yieldView v => commitView { i2 with lifecycle := LifecycleState.running } v
  | GenStep.returnView v => commitView { i2 with lifecycle := LifecycleState.settled } v
  | GenStep.returnVoid => { i2 with lifecycle := LifecycleState.settled }
  | GenStep.raise =>
      { i2 with lifecycle := LifecycleState.finalized
                errorsLogged := i2.errorsLogged + 1 }

/-- Modelled from the spec: one scheduler turn that lets an in-flight
render complete; if a further render was requested while it was in
flight and the instance is still running and connected, exactly one
trailing render is scheduled (spec 4.1 `requestRender`, spec 9 the
in-flight flag plus the one-more-requested flag). -/
def runOneRender (gen : Gen) (inst : Instance) : Instance :=
  if inst.renderInFlight = true then
    if (completeAdvance gen inst).renderRequested = true ∧
        (completeAdvance gen inst).lifecycle = LifecycleState.running ∧
        (completeAdvance gen inst).connected = true then
      { completeAdvance gen inst with renderRequested := false, renderInFlight := true }
    else
      { completeAdvance gen inst with renderRequested := false }
  else inst

/-- Modelled from the spec: the imperative re-render trigger (spec 4.1
`requestRender`): a no-op outside the connected window and once Settled
or Finalized; while a render is in flight the call is recorded in the
one-more-requested flag; otherwise a render is scheduled. -/
def requestRender (inst : Instance) : Instance :=
  if inst.connected = false then inst
  else if inst.lifecycle = LifecycleState.settled ∨
      inst.lifecycle = LifecycleState.finalized then inst
  else if inst.renderInFlight = true then { inst with renderRequested := true }
  else { inst with renderInFlight := true }

/-- Modelled from the spec: running the scheduler until the in-flight
render and the at-most-one trailing render have completed; two turns
always suffice because the trailing render clears the requested flag
(spec 5 coalescing). -/
def settleRenders (gen : Gen) (inst : Instance) : Instance :=
  runOneRender gen (runOneRender gen inst)

/-- Modelled from the spec: connection (spec 4.1 `start`): the generator
is constructed and advanced once and the first produced view is
committed; if it raises before yielding or returning anything, the error
is surfaced to the connection path and no content is committed. -/
def connect (gen : Gen) (inst0 : Instance) : Except String Instance :=
  let inst : Instance :=
    { inst0 with connected := true, lifecycle := LifecycleState.running }
  match gen 0 with
  | GenStep.raise => Except.error "error in initial render"
  | GenStep.yieldView v =>
      Except.ok (commitView { inst with resumptions := 1 } v)
  | GenStep.returnView v =>
      Except.ok (commitView
        { inst with resumptions := 1, lifecycle := LifecycleState.settled } v)
  | GenStep.returnVoid =>
      Except.ok { inst with resumptions := 1, lifecycle := LifecycleState.settled }

/-- Modelled from the spec: disconnection finalizes the generator,
cancelling its ability to produce further views and clearing any pending
render (spec 4.1 `finalize`, spec 5 cancellation). -/
def disconnect (inst : Instance) : Instance :=
  { inst with connected := false
              lifecycle := LifecycleState.finalized
              renderInFlight := false
              renderRequested := false }

/-- Modelled from the spec: the attribute bridge coercion implied by the
declared default's kind (spec 4.3): numeric default parses the text as a
number, with the raw string retained when parsing fails (spec 7 case 4);
boolean default compares the string; otherwise the text is kept as a
string; object-typed properties are not settable via attribute text. -/
def digitVal (c : Char) : Option Nat :=
  if c.isDigit then some (c.toNat - 48) else none

/-- Modelled from the spec: decimal digit accumulation for the numeric
attribute coercion. -/
def parseNatAux : List Char → Nat → Option Nat
  | [], acc => some acc
  | c :: cs, acc =>
    match digitVal c with
    | some d => parseNatAux cs (acc * 10 + d)
    | none => none

/-- Modelled from the spec: parsing attribute text as a number (an
optional leading minus sign followed by decimal digits); any other text
is a coercion failure (spec 7 case 4). -/
def parseNumber (s : String) : Option Int :=
  match s.toList with
  | [] => none
  | c :: cs =>
    if c = '-' then
      match cs with
      | [] => none
      | _ => (parseNatAux cs 0).map (fun n => -(n : Int))
    else (parseNatAux (c :: cs) 0).map (fun n => (n : Int))

def coerceAttr (k : PropKind) (v : String) : Option PropValue :=
  match k with
  | PropKind.strKind => some (PropValue.str v)
  | PropKind.numKind =>
      match parseNumber v with
      | some n => some (PropValue.num n)
      | none => some (PropValue.str v)
  | PropKind.boolKind => some (PropValue.boolean (decide (v ≠ "false")))
  | PropKind.objKind => none

/-- Modelled from the spec: the attribute-changed callback delegating to
the attribute bridge (spec 4.2, 4.3): an attribute with no declared
default is ignored; otherwise `properties[name]` is synchronized with the
attribute value coerced per the default's kind, and no render or commit
happens as part of the callback. -/
def applyAttr (defaults : List (String × PropValue)) (inst : Instance)
    (name v : String) : Instance :=
  let i2 : Instance := { inst with attrCallbacks := inst.attrCallbacks + 1 }
  match List.lookup name defaults with
  | none => i2
  | some d =>
      match coerceAttr (kindOf d) v with
      | none => i2
      | some pv =>
          { i2 with props := fun q => if q = name then some pv else i2.props q }

/-- Modelled from the spec: assigning `element.foo = x` updates
`properties.foo` directly, without an attribute round-trip and therefore
without invoking the attribute-mutation callback (spec 4.3). -/
def setProp (inst : Instance) (name : String) (x : PropValue) : Instance :=
  { inst with props := fun q => if q = name then some x else inst.props q }

/-- Modelled from the spec: reading a declared property from the
element. -/
def getProp (inst : Instance) (name : String) : Option PropValue :=
  inst.props name

/-- Modelled from the spec and witnessed by the test suite: component
name normalization — a name with no hyphen separator gets the fixed
namespace "magic-loop-" prepended, a name that already contains a hyphen
is registered unchanged (spec 3, test "should automatically prefix
component name if no hyphen provided"). -/
def hasSeparator (name : String) : Bool :=
  name.toList.contains '-'

def normalizeName (name : String) : String :=
  if hasSeparator name then name else "magic-loop-" ++ name

/-- Modelled from the spec: two sibling instances of the same component
kind; each holds its own `Instance` state (spec 5 shared-resource
policy). -/
structure SiblingWorld where
  firstInst : Instance
  secondInst : Instance

/-- Modelled from the spec: a state change (the closure mutating its own
count) followed by a re-render on the first sibling only. -/
def bumpAndRenderFirst (gen : Gen) (w : SiblingWorld) : SiblingWorld :=
  { w with firstInst :=
      settleRenders gen (requestRender (setProp w.firstInst "count" (PropValue.num 1))) }

/-- Modelled from the spec: a state change followed by a re-render on the
second sibling only. -/
def bumpAndRenderSecond (gen : Gen) (w : SiblingWorld) : SiblingWorld :=
  { w with secondInst :=
      settleRenders gen (requestRender (setProp w.secondInst "count" (PropValue.num 1))) }

/-- A concrete running instance with one render in flight, used to
witness the driver theorems on explicit inputs. -/
def inFlightInstance : Instance :=
  { lifecycle := LifecycleState.running
    connected := true
    resumptions := 1
    committed := some (View.text "v0")
    commits := 1
    renderInFlight := true
    renderRequested := false
    props := fun _ => none
    attrCallbacks := 0
    errorsLogged := 0 }

@[simp] theorem commitView_lifecycle (inst : Instance) (v : View) :
    (commitView inst v).lifecycle = inst.lifecycle := by
  unfold commitView; split <;> rfl

@[simp] theorem commitView_connected (inst : Instance) (v : View) :
    (commitView inst v).connected = inst.connected := by
  unfold commitView; split <;> rfl

@[simp] theorem commitView_resumptions (inst : Instance) (v : View) :
    (commitView inst v).resumptions = inst.resumptions := by
  unfold commitView; split <;> rfl

@[simp] theorem commitView_renderInFlight (inst : Instance) (v : View) :
    (commitView inst v).renderInFlight = inst.renderInFlight := by
  unfold commitView; split <;> rfl

@[simp] theorem commitView_renderRequested (inst : Instance) (v : View) :
    (commitView inst v).renderRequested = inst.renderRequested := by
  unfold commitView; split <;> rfl

@[simp] theorem commitView_errorsLogged (inst : Instance) (v : View) :
    (commitView inst v).errorsLogged = inst.errorsLogged := by
  unfold commitView; split <;> rfl

@[simp] theorem completeAdvance_resumptions (gen : Gen) (inst : Instance) :
    (completeAdvance gen inst).resumptions = inst.resumptions + 1 := by
  unfold completeAdvance
  cases gen inst.resumptions <;> simp

@[simp] theorem completeAdvance_renderInFlight (gen : Gen) (inst : Instance) :
    (completeAdvance gen inst).renderInFlight = false := by
  unfold completeAdvance
  cases gen inst.resumptions <;> simp

@[simp] theorem completeAdvance_renderRequested (gen : Gen) (inst : Instance) :
    (completeAdvance gen inst).renderRequested = inst.renderRequested := by
  unfold completeAdvance
  cases gen inst.resumptions <;> simp

@[simp] theorem completeAdvance_connected (gen : Gen) (inst : Instance) :
    (completeAdvance gen inst).connected = inst.connected := by
  unfold completeAdvance
  cases gen inst.resumptions <;> simp

/-- In-flight renders serialize: a scheduler turn on an instance whose
render is in flight completes exactly one generator resumption. -/
theorem runOneRender_resumptions_inFlight (gen : Gen) (inst : Instance)
    (hf : inst.renderInFlight = true) :
    (runOneRender gen inst).resumptions = inst.resumptions + 1 := by
  unfold runOneRender
  rw [if_pos hf]
  split <;> simp

/-- A scheduler turn on an instance with no render in flight does
nothing. -/
theorem runOneRender_notInFlight (gen : Gen) (inst : Instance)
    (hf : inst.renderInFlight = false) :
    runOneRender gen inst = inst := by
  unfold runOneRender
  rw [if_neg (by simp [hf])]

/-- When no further render was requested, completing the in-flight
render leaves nothing in flight. -/
theorem runOneRender_stops (gen : Gen) (inst : Instance)
    (hq : inst.renderRequested = false) :
    (runOneRender gen inst).renderInFlight = false := by
  unfold runOneRender
  split
  · split
    · rename_i h
      simp [hq] at h
    · simp
  · rename_i h
    simpa using h

/-- When a further render was requested while the in-flight one was out
and the generator yields, completing the turn schedules exactly one
trailing render. -/
theorem runOneRender_sched (gen : Gen) (inst : Instance) (v : View)
    (hc : inst.connected = true) (hf : inst.renderInFlight = true)
    (hq : inst.renderRequested = true)
    (hy : gen inst.resumptions = GenStep.yieldView v) :
    (runOneRender gen inst).renderInFlight = true ∧
    (runOneRender gen inst).resumptions = inst.resumptions + 1 := by
  unfold runOneRender
  rw [if_pos hf, if_pos]
  · exact ⟨rfl, by simp⟩
  · refine ⟨by simp [hq], ?_, by simp [hc]⟩
    simp [completeAdvance, hy]

/-- The re-render trigger while a render is in flight only records the
request. -/
theorem requestRender_of_inFlight (inst : Instance)
    (hc : inst.connected = true) (hr : inst.lifecycle = LifecycleState.running)
    (hf : inst.renderInFlight = true) :
    requestRender inst = { inst with renderRequested := true } := by
  unfold requestRender
  rw [if_neg (by simp [hc]), if_neg (by simp [hr]), if_pos hf]

/-- Once the request is recorded, further synchronous calls to the
trigger change nothing. -/
theorem requestRender_fixed (s : Instance)
    (hc : s.connected = true) (hr : s.lifecycle = LifecycleState.running)
    (hf : s.renderInFlight = true) (hq : s.renderRequested = true) :
    requestRender s = s := by
  rw [requestRender_of_inFlight s hc hr hf, ← hq]

/-- N synchronous trigger calls while a render is in flight, for any
N at least one, leave the instance with just the single recorded
request. -/
theorem requestRender_iterate (inst : Instance) (N : Nat)
    (hc : inst.connected = true) (hr : inst.lifecycle = LifecycleState.running)
    (hf : inst.renderInFlight = true) (hN : 1 ≤ N) :
    Nat.iterate requestRender N inst = { inst with renderRequested := true } := by
  obtain ⟨n, rfl⟩ : ∃ n, N = n + 1 := ⟨N - 1, by omega⟩
  rw [Function.iterate_succ_apply, requestRender_of_inFlight inst hc hr hf]
  exact Function.iterate_fixed
    (requestRender_fixed { inst with renderRequested := true } hc hr hf rfl) n

/-- The re-render trigger is a no-op on a Settled or Finalized
instance. -/
theorem requestRender_of_settledOrFinalized (s : Instance)
    (h : s.lifecycle = LifecycleState.settled ∨
      s.lifecycle = LifecycleState.finalized) :
    requestRender s = s := by
  unfold requestRender
  rcases h with h | h <;> simp [h]

/-- Claim C9: a component name that already contains the hyphen separator
is registered unchanged; a name with no separator gets the fixed
namespace prepended. -/
theorem component_name_normalized (name : String) :
    (hasSeparator name = true → normalizeName name = name) ∧
    (hasSeparator name = false → normalizeName name = "magic-loop-" ++ name) := by
  constructor <;> intro h <;> simp [normalizeName, h]

/-- Witness for C9 at the concrete names of the spec scenario. -/
theorem component_name_normalized_witness :
    normalizeName "foo-bar" = "foo-bar" ∧
    normalizeName "foo" = "magic-loop-foo" :=
  ⟨(component_name_normalized "foo-bar").1 (by decide),
   (component_name_normalized "foo").2 (by decide)⟩

/-- Claim C10: the fixed namespace prepended to hyphen-less component
names is exactly "magic-loop": registering "test" defines the custom
element "magic-loop-test". -/
theorem default_ns_is_magic_loop :
    normalizeName "test" = "magic-loop-test" := by
  decide

/-- Claim C7: setting `element.p = X` then reading `element.p` returns
`X`; the assignment updates the instance's properties mapping and does
not invoke the attribute-mutation callback (so no callback loop). -/
theorem property_round_trip (inst : Instance) (p : String) (X : PropValue) :
    getProp (setProp inst p X) p = some X ∧
    (setProp inst p X).props p = some X ∧
    (setProp inst p X).attrCallbacks = inst.attrCallbacks := by
  refine ⟨?_, ?_, rfl⟩ <;> simp [getProp, setProp]

/-- Claim C8: for two sibling instances of the same component kind, a
state change and re-render on one instance leaves the other instance —
in particular its committed view and its properties — unchanged. -/
theorem sibling_instances_independent (gen : Gen) (w : SiblingWorld) :
    (bumpAndRenderFirst gen w).secondInst = w.secondInst ∧
    (bumpAndRenderFirst gen w).secondInst.committed = w.secondInst.committed ∧
    (bumpAndRenderSecond gen w).firstInst = w.firstInst ∧
    (bumpAndRenderSecond gen w).firstInst.committed = w.firstInst.committed :=
  ⟨rfl, rfl, rfl, rfl⟩

/-- Claim C1: if a render is already in flight, then no matter how many
times the re-render trigger is called synchronously during it (N at
least 1), exactly one additional generator resumption runs after the
in-flight render completes — the burst settles at two resumptions total
where the in-flight render alone settles at one. -/
theorem requestRender_coalesces (gen : Gen) (inst : Instance) (N : Nat) (v : View)
    (hc : inst.connected = true) (hr : inst.lifecycle = LifecycleState.running)
    (hf : inst.renderInFlight = true) (hq : inst.renderRequested = false)
    (hy : gen inst.resumptions = GenStep.yieldView v) (hN : 1 ≤ N) :
    (settleRenders gen (Nat.iterate requestRender N inst)).resumptions =
      inst.resumptions + 2 ∧
    (settleRenders gen inst).resumptions = inst.resumptions + 1 := by
  constructor
  · rw [requestRender_iterate inst N hc hr hf hN]
    have h1 := runOneRender_sched gen { inst with renderRequested := true } v hc hf rfl hy
    unfold settleRenders
    rw [runOneRender_resumptions_inFlight gen _ h1.1, h1.2]
  · unfold settleRenders
    rw [runOneRender_notInFlight gen _ (runOneRender_stops gen inst hq),
      runOneRender_resumptions_inFlight gen inst hf]

/-- Witness for C1: three synchronous trigger calls during an in-flight
render on a concrete instance coalesce to exactly one trailing
resumption. -/
theorem requestRender_coalesces_witness :
    (settleRenders (fun _ => GenStep.yieldView (View.text "x"))
        (Nat.iterate requestRender 3 inFlightInstance)).resumptions =
      inFlightInstance.resumptions + 2 ∧
    (settleRenders (fun _ => GenStep.yieldView (View.text "x"))
        inFlightInstance).resumptions = inFlightInstance.resumptions + 1 :=
  requestRender_coalesces (fun _ => GenStep.yieldView (View.text "x"))
    inFlightInstance 3 (View.text "x") rfl rfl rfl rfl rfl (by decide)

/-- Claim C2: attaching a freshly created element of a registered kind
commits exactly one view before any render() call, and that view is the
first view the generator yields or returns. -/
theorem connect_commits_first_view (gen : Gen) (v : View)
    (h : gen 0 = GenStep.yieldView v ∨ gen 0 = GenStep.returnView v) :
    (connect gen newInstance).map (fun i => (i.committed, i.commits)) =
      Except.ok (some v, 1) := by
  rcases h with h | h <;>
    simp [connect, h, newInstance, commitView, Except.map]

/-- Witness for C2 on a concrete generator whose first step yields a
view. -/
theorem connect_commits_first_view_witness :
    (connect (fun _ => GenStep.yieldView (View.text "hello")) newInstance).map
        (fun i => (i.committed, i.commits)) =
      Except.ok (some (View.text "hello"), 1) :=
  connect_commits_first_view (fun _ => GenStep.yieldView (View.text "hello"))
    (View.text "hello") (Or.inl rfl)

/-- Claim C3: when the generator raises during a later advance (after a
first view is committed), the driver contains the error — it returns
normally, logs the error, leaves the instance Finalized and still
showing its last successfully committed view, and the re-render trigger
is thereafter a no-op. -/
theorem later_advance_error_contained (gen : Gen) (inst : Instance) (v : View)
    (hc : inst.connected = true) (hr : inst.lifecycle = LifecycleState.running)
    (hf : inst.renderInFlight = true) (hk : 1 ≤ inst.resumptions)
    (hcv : inst.committed = some v)
    (he : gen inst.resumptions = GenStep.raise) :
    (runOneRender gen inst).lifecycle = LifecycleState.finalized ∧
    (runOneRender gen inst).committed = some v ∧
    (runOneRender gen inst).errorsLogged = inst.errorsLogged + 1 ∧
    requestRender (runOneRender gen inst) = runOneRender gen inst := by
  have hadv : (completeAdvance gen inst).lifecycle = LifecycleState.finalized ∧
      (completeAdvance gen inst).committed = inst.committed ∧
      (completeAdvance gen inst).errorsLogged = inst.errorsLogged + 1 := by
    refine ⟨?_, ?_, ?_⟩ <;> simp [completeAdvance, he]
  have hrun : runOneRender gen inst =
      { completeAdvance gen inst with renderRequested := false } := by
    unfold runOneRender
    rw [if_pos hf, if_neg]
    intro hcontr
    rw [hadv.1] at hcontr
    exact absurd hcontr.2.1 (by simp)
  rw [hrun]
  refine ⟨by simp [hadv.1], by simp [hadv.2.1, hcv], by simp [hadv.2.2], ?_⟩
  exact requestRender_of_settledOrFinalized _ (Or.inr (by simp [hadv.1]))

/-- Witness for C3: a generator raising at its second resumption leaves
a concrete instance Finalized and still showing its last committed
view. -/
theorem later_advance_error_contained_witness :
    (runOneRender (fun _ => GenStep.raise) inFlightInstance).lifecycle =
      LifecycleState.finalized ∧
    (runOneRender (fun _ => GenStep.raise) inFlightInstance).committed =
      some (View.text "v0") ∧
    (runOneRender (fun _ => GenStep.raise) inFlightInstance).errorsLogged =
      inFlightInstance.errorsLogged + 1 ∧
    requestRender (runOneRender (fun _ => GenStep.raise) inFlightInstance) =
      runOneRender (fun _ => GenStep.raise) inFlightInstance :=
  later_advance_error_contained (fun _ => GenStep.raise) inFlightInstance
    (View.text "v0") rfl rfl rfl (by decide) rfl rfl

/-- Claim C4: when the generator returns a view, that view is committed
exactly once and the instance enters Settled; afterwards the re-render
trigger is a no-op, the generator is never resumed again and the
committed view does not change. -/
theorem return_view_settles (gen : Gen) (inst : Instance) (v : View)
    (hc : inst.connected = true) (hr : inst.lifecycle = LifecycleState.running)
    (hf : inst.renderInFlight = true)
    (hv : gen inst.resumptions = GenStep.returnView v) :
    (runOneRender gen inst).lifecycle = LifecycleState.settled ∧
    (runOneRender gen inst).committed = some v ∧
    (runOneRender gen inst).commits = inst.commits + 1 ∧
    (runOneRender gen inst).resumptions = inst.resumptions + 1 ∧
    requestRender (runOneRender gen inst) = runOneRender gen inst ∧
    runOneRender gen (runOneRender gen inst) = runOneRender gen inst := by
  have hadv : (completeAdvance gen inst).lifecycle = LifecycleState.settled ∧
      (completeAdvance gen inst).committed = some v ∧
      (completeAdvance gen inst).commits = inst.commits + 1 := by
    refine ⟨?_, ?_, ?_⟩ <;> simp [completeAdvance, hv, commitView, hc]
  have hrun : runOneRender gen inst =
      { completeAdvance gen inst with renderRequested := false } := by
    unfold runOneRender
    rw [if_pos hf, if_neg]
    intro hcontr
    rw [hadv.1] at hcontr
    exact absurd hcontr.2.1 (by simp)
  rw [hrun]
  refine ⟨by simp [hadv.1], by simp [hadv.2.1], by simp [hadv.2.2], by simp, ?_, ?_⟩
  · exact requestRender_of_settledOrFinalized _ (Or.inl (by simp [hadv.1]))
  · exact runOneRender_notInFlight gen _ (by simp)

/-- Witness for C4: a concrete generator returning a static view settles
the instance with that view committed. -/
theorem return_view_settles_witness :
    (runOneRender (fun _ => GenStep.returnView (View.text "done"))
        inFlightInstance).lifecycle = LifecycleState.settled ∧
    (runOneRender (fun _ => GenStep.returnView (View.text "done"))
        inFlightInstance).committed = some (View.text "done") ∧
    (runOneRender (fun _ => GenStep.returnView (View.text "done"))
        inFlightInstance).commits = inFlightInstance.commits + 1 ∧
    (runOneRender (fun _ => GenStep.returnView (View.text "done"))
        inFlightInstance).resumptions = inFlightInstance.resumptions + 1 ∧
    requestRender (runOneRender (fun _ => GenStep.returnView (View.text "done"))
        inFlightInstance) =
      runOneRender (fun _ => GenStep.returnView (View.text "done"))
        inFlightInstance ∧
    runOneRender (fun _ => GenStep.returnView (View.text "done"))
        (runOneRender (fun _ => GenStep.returnView (View.text "done"))
          inFlightInstance) =
      runOneRender (fun _ => GenStep.returnView (View.text "done"))
        inFlightInstance :=
  return_view_settles (fun _ => GenStep.returnView (View.text "done"))
    inFlightInstance (View.text "done") rfl rfl rfl rfl

/-- Claim C5: an instance has a live generator only between connection
and disconnection: disconnection finalizes the generator, after which
the trigger and the scheduler leave the instance untouched (never
resuming the generator), and the trigger is a no-op on any disconnected
instance. -/
theorem generator_live_only_while_connected (gen : Gen) (inst other : Instance)
    (hother : other.connected = false) :
    (disconnect inst).lifecycle = LifecycleState.finalized ∧
    (disconnect inst).connected = false ∧
    (disconnect inst).resumptions = inst.resumptions ∧
    requestRender (disconnect inst) = disconnect inst ∧
    runOneRender gen (disconnect inst) = disconnect inst ∧
    settleRenders gen (disconnect inst) = disconnect inst ∧
    requestRender other = other := by
  have hrun : runOneRender gen (disconnect inst) = disconnect inst :=
    runOneRender_notInFlight gen _ rfl
  refine ⟨rfl, rfl, rfl, ?_, hrun, ?_, ?_⟩
  · unfold requestRender
    rw [if_pos (show (disconnect inst).connected = false from rfl)]
  · unfold settleRenders
    rw [hrun, hrun]
  · unfold requestRender
    rw [if_pos hother]

/-- Witness for C5 on a concrete running instance and the freshly
constructed (not yet connected) instance. -/
theorem generator_live_only_while_connected_witness :
    (disconnect inFlightInstance).lifecycle = LifecycleState.finalized ∧
    (disconnect inFlightInstance).connected = false ∧
    (disconnect inFlightInstance).resumptions = inFlightInstance.resumptions ∧
    requestRender (disconnect inFlightInstance) = disconnect inFlightInstance ∧
    runOneRender (fun _ => GenStep.yieldView (View.text "x"))
        (disconnect inFlightInstance) = disconnect inFlightInstance ∧
    settleRenders (fun _ => GenStep.yieldView (View.text "x"))
        (disconnect inFlightInstance) = disconnect inFlightInstance ∧
    requestRender newInstance = newInstance :=
  generator_live_only_while_connected (fun _ => GenStep.yieldView (View.text "x"))
    inFlightInstance newInstance rfl

/-- Claim C6: for a property declared in the defaults, setting the DOM
attribute to V updates the instance's property of that name to V coerced
per the declared default's kind — string defaults keep the text, numeric
defaults parse it as a number, boolean defaults compare the text — and
no commit happens as part of the attribute callback, so the value is
visible before the next render is committed. -/
theorem attribute_sets_coerced_property
    (defaults : List (String × PropValue)) (inst : Instance) (p V : String)
    (d : PropValue) (hd : List.lookup p defaults = some d)
    (hk : kindOf d ≠ PropKind.objKind) :
    (applyAttr defaults inst p V).props p = coerceAttr (kindOf d) V ∧
    (kindOf d = PropKind.strKind →
      (applyAttr defaults inst p V).props p = some (PropValue.str V)) ∧
    (∀ n : Int, kindOf d = PropKind.numKind → parseNumber V = some n →
      (applyAttr defaults inst p V).props p = some (PropValue.num n)) ∧
    (kindOf d = PropKind.boolKind →
      (applyAttr defaults inst p V).props p =
        some (PropValue.boolean (decide (V ≠ "false")))) ∧
    (applyAttr defaults inst p V).commits = inst.commits ∧
    (applyAttr defaults inst p V).committed = inst.committed := by
  have hco : ∃ pv, coerceAttr (kindOf d) V = some pv := by
    cases d with
    | str s => exact ⟨PropValue.str V, rfl⟩
    | num n =>
        cases hp : parseNumber V with
        | none => exact ⟨PropValue.str V, by simp [coerceAttr, kindOf, hp]⟩
        | some m => exact ⟨PropValue.num m, by simp [coerceAttr, kindOf, hp]⟩
    | boolean b => exact ⟨PropValue.boolean (decide (V ≠ "false")), rfl⟩
    | obj => exact absurd rfl hk
  obtain ⟨pv, hpv⟩ := hco
  have hmain : (applyAttr defaults inst p V).props p = some pv := by
    simp [applyAttr, hd, hpv]
  have h0 : (applyAttr defaults inst p V).props p = coerceAttr (kindOf d) V := by
    rw [hmain, hpv]
  refine ⟨h0, ?_, ?_, ?_, ?_, ?_⟩
  · intro hks
    rw [h0, hks]
    rfl
  · intro n hkn hpn
    rw [h0, hkn]
    simp [coerceAttr, hpn]
  · intro hkb
    rw [h0, hkb]
    rfl
  · simp [applyAttr, hd, hpv]
  · simp [applyAttr, hd, hpv]

/-- Witness for C6: setting the attribute "count" (declared with numeric
default 0) to the text "42" makes the property the number 42, with no
commit in between. -/
theorem attribute_sets_coerced_property_witness :
    (applyAttr [("count", PropValue.num 0)] newInstance "count" "42").props
        "count" = some (PropValue.num 42) :=
  (attribute_sets_coerced_property [("count", PropValue.num 0)] newInstance
    "count" "42" (PropValue.num 0) (by decide) (by decide)).2.2.1 42 rfl (by decide)

end MagicLoop
